import Mathlib

/-!
Verification of the Similarity Ranking & Estimate Aggregation Engine
of the task_tracker repository.

The definitions below are a shallow embedding of the Python sources:

* `ai_tools/services/mocked_ai_service.py`
  (`MockedAIService._find_similar_tasks`, `_calculate_estimate_confidence`,
  `_generate_estimate_rationale`, `generate_estimate`);
* `tasks/services.py` (`SimilarityService._generate_rationale`).

Python numbers are modelled exactly: `int` as `ℕ`/`ℤ` and `float`
arithmetic as `ℚ` (the spec's arithmetic is exact-rational-representable).
`statistics.median` results are modelled by `PyNum`, which remembers
whether Python produced an `int` (odd count) or a `float` (even count),
because Python's string formatting of the two differs.
A task (spec: "Item") is modelled with the fields the engine reads.
-/

/-- A task as read by the similarity engine: identifier, title, description,
optional assignee (user id), tag list (source stores tags as a JSON list of
strings), optional estimate, and the last-modified timestamp used for
tie-breaking (`updated_at.timestamp()`). -/
structure Item where
  id : ℕ
  title : String
  description : String
  assignee : Option ℕ
  tags : List String
  estimate : Option ℕ
  updatedAt : ℤ
deriving DecidableEq, Repr

/-- ASCII lowercasing of a string; models Python's `str.lower()`. -/
def pyLower (s : String) : String :=
  (s.toList.map Char.toLower).asString

/-- Accumulator-based splitter on whitespace runs (no empty tokens). -/
def splitWordsAux : List Char → List Char → List (List Char)
  | [], acc => if acc = [] then [] else [acc.reverse]
  | c :: cs, acc =>
    if c.isWhitespace then
      (if acc = [] then splitWordsAux cs [] else acc.reverse :: splitWordsAux cs [])
    else splitWordsAux cs (c :: acc)

/-- Models Python's `str.split()` with no argument: split on runs of
whitespace, discarding empty tokens. -/
def pySplit (s : String) : List String :=
  (splitWordsAux s.toList []).map List.asString

/-- The word set `set(s.lower().split())` used by the scorer's
title/description signals. -/
def wordSet (s : String) : Finset String :=
  (pySplit (pyLower s)).toFinset

/-- Similarity score of a candidate against a target task; embedding of the
scoring loop body of `MockedAIService._find_similar_tasks`
(mocked_ai_service.py lines 294-322): same assignee 100, overlapping tags
80 each, title word overlap capped at 60, description word overlap capped
at 40. -/
def score (task candidate : Item) : ℕ :=
  let s1 :=
    match task.assignee, candidate.assignee with
    | some a, some b => if a = b then 100 else 0
    | _, _ => 0
  let s2 :=
    if task.tags ≠ [] ∧ candidate.tags ≠ [] then
      80 * (task.tags.toFinset ∩ candidate.tags.toFinset).card
    else 0
  let s3 :=
    if task.title ≠ "" ∧ candidate.title ≠ "" then
      let word_overlap := (wordSet task.title ∩ wordSet candidate.title).card
      if 0 < word_overlap then min (20 * word_overlap) 60 else 0
    else 0
  let s4 :=
    if task.description ≠ "" ∧ candidate.description ≠ "" then
      let word_overlap := (wordSet task.description ∩ wordSet candidate.description).card
      if 0 < word_overlap then min (5 * word_overlap) 40 else 0
    else 0
  s1 + s2 + s3 + s4

/-- The sort order of `scored_tasks.sort(key=lambda x: (-x[1], -x[0].updated_at.timestamp()))`:
ascending in the key `(-score, -timestamp)`, i.e. descending score, ties
by descending timestamp. -/
def rankRel (p q : Item × ℕ) : Prop :=
  q.2 < p.2 ∨ (p.2 = q.2 ∧ q.1.updatedAt ≤ p.1.updatedAt)

instance : DecidableRel rankRel := fun p q => by
  unfold rankRel
  infer_instance

instance : IsTrans (Item × ℕ) rankRel := by
  constructor
  intro a b c hab hbc
  unfold rankRel at *
  omega

instance : IsTotal (Item × ℕ) rankRel := by
  constructor
  intro a b
  unfold rankRel
  omega

/-- Python list slicing `l[:n]` for an `int` bound `n`: a nonnegative bound
keeps the first `n` elements; a negative bound drops the last `-n`
elements (never an error). -/
def pySlice {α : Type} (l : List α) (n : ℤ) : List α :=
  if 0 ≤ n then l.take n.toNat else l.take (l.length - (-n).toNat)

/-- Embedding of `MockedAIService._find_similar_tasks` (mocked_ai_service.py
lines 270-332).  The candidate population (`Task.objects`) is passed
explicitly; the target is excluded by id, every candidate is scored, the
zero-score candidates are dropped, the rest are sorted by descending score
with ties by descending `updated_at` (Python's `list.sort` is stable and
the comparator is a total preorder, so the stable `insertionSort` produces
the same list), and the first `limit` entries are returned. -/
def findSimilarTasks (task : Item) (population : List Item) (limit : ℤ) : List Item :=
  let all_tasks := population.filter fun c => c.id ≠ task.id
  let scored_tasks := (all_tasks.map fun c => (c, score task c)).filter fun p => 0 < p.2
  let sorted_tasks := scored_tasks.insertionSort rankRel
  (pySlice sorted_tasks limit).map Prod.fst

/-- A Python number as produced by `statistics.median` on a list of ints:
an `int` for an odd count, a `float` (here an exact rational) for an even
count.  The distinction matters only for string formatting. -/
inductive PyNum where
  | pint : ℤ → PyNum
  | pfloat : ℚ → PyNum
deriving DecidableEq, Repr

/-- Truncation toward zero, as Python's `int(...)` applied to a rational. -/
def ratTrunc (q : ℚ) : ℤ :=
  Int.tdiv q.num q.den

/-- Python `int(...)` of a median value. -/
def PyNum.trunc : PyNum → ℤ
  | .pint n => n
  | .pfloat q => ratTrunc q

/-- Python string formatting of a median value.  An `int` prints bare; a
`float` median of integers is always a multiple of 1/2 and prints as
`x.0` or `x.5`. -/
def PyNum.pyStr : PyNum → String
  | .pint n => toString n
  | .pfloat q => if q.den = 1 then toString q.num ++ ".0" else toString (Int.floor q) ++ ".5"

/-- Embedding of `statistics.median` on a list of nonnegative ints: sort, take the middle
element for an odd count, the average of the two middle elements (a Python
`float`) for an even count.  (Python raises on an empty list; the engine
never calls this on one, and the `[]` case here is an arbitrary value.) -/
def pyMedian (data : List ℕ) : PyNum :=
  let s := data.insertionSort (fun a b => a ≤ b)
  let n := data.length
  if n % 2 = 1 then .pint (s.getD (n / 2) 0 : ℕ)
  else .pfloat (((s.getD (n / 2 - 1) 0 : ℕ) + (s.getD (n / 2) 0 : ℕ) : ℚ) / 2)

/-- Arithmetic mean used by `statistics.variance`. -/
def pyMean (l : List ℕ) : ℚ :=
  (l.map fun x => (x : ℚ)).sum / l.length

/-- Embedding of `statistics.variance`: the SAMPLE variance, with the
Bessel `n - 1` denominator. -/
def pyVariance (l : List ℕ) : ℚ :=
  ((l.map fun x => ((x : ℚ) - pyMean l) ^ 2).sum) / ((l.length : ℚ) - 1)

/-- Population variance (denominator `n`); not what the source computes —
used to state the spec's claimed confidence formula. -/
def popVariance (l : List ℕ) : ℚ :=
  ((l.map fun x => ((x : ℚ) - pyMean l) ^ 2).sum) / (l.length : ℚ)

/-- Python `max` over a list of naturals (0 on the empty list, which the
engine never passes). -/
def maxList (l : List ℕ) : ℕ :=
  l.foldl max 0

/-- Embedding of `MockedAIService._calculate_estimate_confidence`
(mocked_ai_service.py lines 334-368).  The one partial operation in the
body is the division `estimate_variance / max_variance`, which raises
`ZeroDivisionError` in Python when `max(estimates) == 0`; that failure is
modelled as `none`. -/
def calculateEstimateConfidence (estimates : List ℕ) (total_similar_tasks : ℕ) : Option ℚ :=
  if estimates = [] then some 0.40
  else
    let base_confidence : ℚ := 0.65
    let estimate_count_factor : ℚ := min ((estimates.length : ℚ) / 5) 1 * 0.15
    let consistency_factor? : Option ℚ :=
      if 1 < estimates.length then
        let estimate_variance := pyVariance estimates
        let max_variance : ℚ := (maxList estimates : ℚ) ^ 2
        if max_variance = 0 then none
        else some ((1 - min (estimate_variance / max_variance) 1) * 0.10)
      else some 0.05
    match consistency_factor? with
    | none => none
    | some consistency_factor =>
      let context_factor : ℚ := min ((total_similar_tasks : ℚ) / 10) 1 * 0.10
      some (min (base_confidence + estimate_count_factor + consistency_factor + context_factor) 0.95)

/-- Embedding of `MockedAIService._generate_estimate_rationale`
(mocked_ai_service.py lines 370-397). -/
def generateEstimateRationale (estimate_count : ℕ) (median_estimate : PyNum) (confidence : ℚ) : String :=
  if estimate_count = 0 then "No similar tasks found with estimates. Suggesting default 3 points."
  else
    "Based on " ++ toString estimate_count ++ " similar task"
    ++ (if 1 < estimate_count then "s" else "")
    ++ ", median estimate is " ++ median_estimate.pyStr ++ " points"
    ++ (if 0.8 ≤ confidence then " (high confidence)"
        else if 0.6 ≤ confidence then " (medium confidence)"
        else " (low confidence)")

/-- The confidence level of `SimilarityService._generate_rationale`
(tasks/services.py line 309). -/
def rationaleLevel (confidence : ℚ) : String :=
  if 0.80 ≤ confidence then "high" else if 0.65 ≤ confidence then "medium" else "low"

/-- Embedding of `SimilarityService._generate_rationale` (tasks/services.py
lines 293-314); its `median_estimate` argument is the raw median, truncated
with `int(...)` inside the templates. -/
def generateRationale (estimate_count : ℕ) (median_estimate : ℚ) (confidence : ℚ) : String :=
  if estimate_count = 0 then "No similar tasks found with estimates. Suggesting default 3 points."
  else if estimate_count = 1 then
    "Based on 1 similar task with estimate " ++ toString (ratTrunc median_estimate)
    ++ ". Confidence: " ++ rationaleLevel confidence ++ "."
  else
    "Based on median of " ++ toString estimate_count ++ " similar tasks (median: "
    ++ toString (ratTrunc median_estimate) ++ " points). Confidence: " ++ rationaleLevel confidence ++ "."

/-- Python's `round(q, 2)`: round to the nearest multiple of 1/100, ties to
even (the binary-float representation error of CPython is abstracted
away; every bound proved about the result only uses that this is a
nearest rounding). -/
def pyRound2 (q : ℚ) : ℚ :=
  let x := q * 100
  let r : ℤ := if Int.fract x = 1 / 2 then (if Even (Int.floor x) then Int.floor x else Int.floor x + 1) else round x
  (r : ℚ) / 100

/-- The suggestion record returned by `generate_estimate`. -/
structure Suggestion where
  suggestedPoints : ℤ
  confidence : ℚ
  similarTaskIds : List String
  rationale : String
deriving DecidableEq, Repr

/-- The "no similar tasks with estimates" fallback of `generate_estimate`
(mocked_ai_service.py lines 87-94). -/
def fallbackNoEstimates : Suggestion :=
  ⟨3, 0.40, [], "No similar tasks found with estimates. Suggesting default 3 points."⟩

/-- The fallback returned by the broad `except` handler of
`generate_estimate` (mocked_ai_service.py lines 118-125). -/
def errorFallback : Suggestion :=
  ⟨3, 0.40, [], "Unable to generate estimate at this time."⟩

/-- Embedding of `MockedAIService.generate_estimate` (mocked_ai_service.py
lines 66-125).  The candidate population is passed explicitly.  The only
failure point of the body is the `ZeroDivisionError` inside
`_calculate_estimate_confidence` (modelled by `none`), which the broad
`except` handler converts to `errorFallback`. -/
def generateEstimate (task : Item) (population : List Item) : Suggestion :=
  let similar_tasks := findSimilarTasks task population 20
  let tasks_with_estimates := similar_tasks.filter fun t => t.estimate.isSome
  if tasks_with_estimates = [] then fallbackNoEstimates
  else
    let estimates := tasks_with_estimates.filterMap fun t => t.estimate
    let median_estimate := pyMedian estimates
    match calculateEstimateConfidence estimates similar_tasks.length with
    | none => errorFallback
    | some confidence =>
      ⟨median_estimate.trunc,
       pyRound2 confidence,
       (similar_tasks.take 5).map fun t => toString t.id,
       generateEstimateRationale estimates.length median_estimate confidence⟩

/-- Modelled from the spec: the confidence formula exactly as claim C3
words it, with `c` computed from the POPULATION variance of the
estimates.  Stated only to compare against the source's
`calculateEstimateConfidence`. -/
def claimedC3Confidence (estimates : List ℕ) (m : ℕ) : ℚ :=
  let n := estimates.length
  let c : ℚ :=
    if n = 1 then 0.05
    else (1 - min (popVariance estimates / (maxList estimates : ℚ) ^ 2) 1) * 0.10
  min (0.65 + min ((n : ℚ) / 5) 1 * 0.15 + c + min ((m : ℚ) / 10) 1 * 0.10) 0.95

/-! ## Theorems -/

theorem wordSet_empty : wordSet "" = ∅ := by decide

/-- C1: for every target and candidate, the similarity score is the sum of the
four independently evaluated signals: 100 for a shared non-empty assignee,
plus 80 per shared tag (uncapped), plus the title word-overlap signal capped
at 60, plus the description word-overlap signal capped at 40; empty titles or
descriptions contribute 0 automatically and no signal short-circuits
another. -/
theorem C1_score_is_sum_of_four_signals (t c : Item) :
    score t c =
      (if t.assignee ≠ none ∧ t.assignee = c.assignee then 100 else 0)
      + 80 * (t.tags.toFinset ∩ c.tags.toFinset).card
      + min (20 * (wordSet t.title ∩ wordSet c.title).card) 60
      + min (5 * (wordSet t.description ∩ wordSet c.description).card) 40 := by
  simp only [score]
  congr 1
  · congr 1
    · congr 1
      · -- assignee signal
        rcases ht : t.assignee with _ | a <;> rcases hc : c.assignee with _ | b <;> simp
      · -- tag signal
        by_cases h1 : t.tags = []
        · simp [h1]
        · by_cases h2 : c.tags = []
          · simp [h2]
          · simp [h1, h2]
    · -- title signal
      by_cases h1 : t.title = ""
      · simp [h1, wordSet_empty]
      · by_cases h2 : c.title = ""
        · simp [h2, wordSet_empty]
        · simp only [h1, h2, ne_eq, not_false_iff, and_self, if_true]
          by_cases h3 : 0 < (wordSet t.title ∩ wordSet c.title).card
          · simp [h3]
          · simp at h3
            simp [h3]
  · -- description signal
    by_cases h1 : t.description = ""
    · simp [h1, wordSet_empty]
    · by_cases h2 : c.description = ""
      · simp [h2, wordSet_empty]
      · simp only [h1, h2, ne_eq, not_false_iff, and_self, if_true]
        by_cases h3 : 0 < (wordSet t.description ∩ wordSet c.description).card
        · simp [h3]
        · simp at h3
          simp [h3]

theorem map_fst_scored (t : Item) (l : List Item) :
    (((l.map fun c => (c, score t c)).filter fun p => 0 < p.2).map Prod.fst)
      = l.filter fun c => 0 < score t c := by
  induction l with
  | nil => rfl
  | cons a l ih =>
    by_cases h : 0 < score t a <;> simp [List.filter_cons, h, ih]

theorem snd_eq_score {t : Item} {l : List Item} {p : Item × ℕ}
    (hp : p ∈ (l.map fun c => (c, score t c)).filter fun q => 0 < q.2) :
    p.2 = score t p.1 := by
  have hm := (List.mem_filter.mp hp).1
  obtain ⟨c, _, hc⟩ := List.mem_map.mp hm
  rw [← hc]

theorem pySlice_natCast {α : Type} (l : List α) (n : ℕ) :
    pySlice l (n : ℤ) = l.take n := by
  simp [pySlice]

/-- C2: for every target, candidate population and (nonnegative) limit, the
ranking returns exactly the non-target candidates with positive score, in an
order sorted descending by score with ties broken by descending
last-modified timestamp, truncated to at most `limit` entries; the target
is excluded by identity, so it never appears in the result. -/
theorem C2_ranking_exact (target : Item) (cands : List Item) (limit : ℕ) :
    ∃ l : List Item,
      List.Perm (cands.filter fun c => c.id ≠ target.id ∧ 0 < score target c) l ∧
      List.Pairwise (fun a b => score target b < score target a ∨
        (score target a = score target b ∧ b.updatedAt ≤ a.updatedAt)) l ∧
      findSimilarTasks target cands (limit : ℤ) = l.take limit ∧
      (∀ c ∈ findSimilarTasks target cands (limit : ℤ), c.id ≠ target.id ∧ 0 < score target c) ∧
      (findSimilarTasks target cands (limit : ℤ)).length ≤ limit := by
  classical
  set all := cands.filter (fun c => c.id ≠ target.id) with hall
  set scored := (all.map fun c => (c, score target c)).filter (fun p => 0 < p.2) with hscored
  set sorted := scored.insertionSort rankRel with hsorted
  refine ⟨sorted.map Prod.fst, ?_, ?_, ?_, ?_, ?_⟩
  case _ =>
    -- the claimed filter is exactly the scored list's underlying items
    have h1 : (cands.filter fun c => c.id ≠ target.id ∧ 0 < score target c)
        = scored.map Prod.fst := by
      rw [hscored, map_fst_scored, hall, List.filter_filter]
      simp only [decide_not]
      congr 1
      funext c
      rw [Bool.and_comm, Bool.decide_and, decide_not]
    rw [h1]
    exact (List.perm_insertionSort rankRel scored).symm.map Prod.fst
  case _ =>
    have hs : List.Pairwise rankRel sorted := List.sorted_insertionSort rankRel scored
    rw [List.pairwise_map]
    refine List.Pairwise.imp_of_mem ?_ hs
    intro p q hp hq hr
    have hp2 : p.2 = score target p.1 := snd_eq_score ((List.mem_insertionSort rankRel).mp hp)
    have hq2 : q.2 = score target q.1 := snd_eq_score ((List.mem_insertionSort rankRel).mp hq)
    unfold rankRel at hr
    rw [hp2, hq2] at hr
    exact hr
  case _ =>
    show (pySlice sorted (limit : ℤ)).map Prod.fst = _
    rw [pySlice_natCast, List.map_take]
  case _ =>
    intro c hc
    have hc1 : c ∈ (pySlice sorted (limit : ℤ)).map Prod.fst := hc
    rw [pySlice_natCast, List.map_take] at hc1
    have hc2 : c ∈ sorted.map Prod.fst := List.take_subset _ _ hc1
    obtain ⟨p, hp, hpc⟩ := List.mem_map.mp hc2
    have hpm : p ∈ scored := (List.mem_insertionSort rankRel).mp hp
    have hscore : p.2 = score target p.1 := snd_eq_score hpm
    have h0 : 0 < p.2 := by
      have := (List.mem_filter.mp hpm).2
      simpa using this
    have hid : p.1 ∈ all := by
      have hm := (List.mem_filter.mp hpm).1
      obtain ⟨d, hd, hdc⟩ := List.mem_map.mp hm
      have : d = p.1 := by rw [← hdc]
      rw [← this]
      exact hd
    constructor
    · have := (List.mem_filter.mp hid).2
      rw [hpc] at this
      simpa using this
    · rw [← hpc, ← hscore]
      exact h0
  case _ =>
    show ((pySlice sorted (limit : ℤ)).map Prod.fst).length ≤ limit
    rw [pySlice_natCast, List.map_take]
    exact (List.length_take_le _ _)

/-- C9: adding a tag shared with the target to an otherwise-identical
candidate never decreases that candidate's similarity score. -/
theorem C9_score_monotone_in_shared_tag (t c : Item) (g : String)
    (h1 : g ∈ t.tags) (h2 : g ∉ c.tags) :
    score t c ≤
      score t ⟨c.id, c.title, c.description, c.assignee, g :: c.tags, c.estimate, c.updatedAt⟩ := by
  have htne : t.tags ≠ [] := by
    intro h
    rw [h] at h1
    exact absurd h1 (List.not_mem_nil g)
  have hg_t : g ∈ t.tags.toFinset := by simpa using h1
  have hg_c : g ∉ c.tags.toFinset := by simpa using h2
  have hins : t.tags.toFinset ∩ (g :: c.tags).toFinset
      = insert g (t.tags.toFinset ∩ c.tags.toFinset) := by
    rw [List.toFinset_cons, Finset.inter_comm, Finset.insert_inter_of_mem hg_t,
      Finset.inter_comm c.tags.toFinset t.tags.toFinset]
  have hcard : (t.tags.toFinset ∩ (g :: c.tags).toFinset).card
      = (t.tags.toFinset ∩ c.tags.toFinset).card + 1 := by
    rw [hins, Finset.card_insert_of_not_mem (by simp [hg_c])]
  simp only [score]
  have hnew : (if t.tags ≠ [] ∧ (g :: c.tags) ≠ [] then
      80 * (t.tags.toFinset ∩ (g :: c.tags).toFinset).card else 0)
      = 80 * ((t.tags.toFinset ∩ c.tags.toFinset).card + 1) := by
    rw [if_pos ⟨htne, List.cons_ne_nil g c.tags⟩, hcard]
  have hold : (if t.tags ≠ [] ∧ c.tags ≠ [] then
      80 * (t.tags.toFinset ∩ c.tags.toFinset).card else 0)
      ≤ 80 * ((t.tags.toFinset ∩ c.tags.toFinset).card + 1) := by
    split_ifs <;> omega
  rw [hnew]
  exact Nat.add_le_add (Nat.add_le_add (Nat.add_le_add_left hold _) le_rfl) le_rfl

/-- Witness for C9 at a concrete input. -/
theorem C9_score_monotone_in_shared_tag_witness :
    ("x" ∈ ["x"] ∧ "x" ∉ ([] : List String)) ∧
      score ⟨1, "", "", none, ["x"], none, 0⟩ ⟨2, "", "", none, [], none, 0⟩ ≤
        score ⟨1, "", "", none, ["x"], none, 0⟩ ⟨2, "", "", none, ["x"], none, 0⟩ :=
  ⟨⟨by decide, by decide⟩,
    C9_score_monotone_in_shared_tag ⟨1, "", "", none, ["x"], none, 0⟩
      ⟨2, "", "", none, [], none, 0⟩ "x" (by decide) (by decide)⟩

theorem calcConf_one_three : calculateEstimateConfidence [1, 3] 2 = some (727 / 900 : ℚ) := by
  norm_num [calculateEstimateConfidence, pyVariance, pyMean, maxList, min_def]
  decide

theorem claimedConf_one_three : claimedC3Confidence [1, 3] 2 = (737 / 900 : ℚ) := by
  norm_num [claimedC3Confidence, popVariance, pyMean, maxList, min_def]

/-- C3 counterexample: on estimates `[1, 3]` drawn from 2 ranked items the
source confidence (computed with Python's SAMPLE variance,
`statistics.variance`) is `727/900 ≈ 0.8078`, while the claim's formula with
the POPULATION variance gives `737/900 ≈ 0.8189`. -/
theorem C3_population_variance_counterexample :
    calculateEstimateConfidence [1, 3] 2 ≠ some (claimedC3Confidence [1, 3] 2) := by
  rw [calcConf_one_three, claimedConf_one_three]
  intro h
  have := Option.some.inj h
  norm_num at this

/-- C3 (amended): the aggregator's confidence equals
`min(0.65 + min(n/5,1)*0.15 + c + min(m/10,1)*0.10, 0.95)` where
`c = 0.05` for `n = 1` and, for `n > 1`,
`c = (1 - min(n*v_pop / ((n-1)*max(E)^2), 1)) * 0.10` with `v_pop` the
population variance — i.e. the source uses the SAMPLE (Bessel-corrected)
variance, not the population variance; defined only when `max(E) ≠ 0`. -/
theorem C3_amended_confidence_formula (E : List ℕ) (m : ℕ)
    (h1 : E ≠ []) (h2 : E.length = 1 ∨ maxList E ≠ 0) :
    calculateEstimateConfidence E m =
      some (min (0.65 + min ((E.length : ℚ) / 5) 1 * 0.15 +
        (if E.length = 1 then 0.05
         else (1 - min (((E.length : ℚ) * popVariance E) /
            (((E.length : ℚ) - 1) * (maxList E : ℚ) ^ 2)) 1) * 0.10) +
        min ((m : ℚ) / 10) 1 * 0.10) 0.95) := by
  have hlen : 1 ≤ E.length := List.length_pos.mpr h1
  simp only [calculateEstimateConfidence, if_neg h1]
  by_cases hn : E.length = 1
  · have hnot : ¬ (1 < E.length) := by omega
    simp [hn, hnot]
  · have hlt : 1 < E.length := by omega
    have hmax : maxList E ≠ 0 := h2.resolve_left hn
    have hmaxq : ((maxList E : ℚ)) ^ 2 ≠ 0 := by
      apply pow_ne_zero
      exact_mod_cast hmax
    have hn0 : (E.length : ℚ) ≠ 0 := by
      exact Nat.cast_ne_zero.mpr (by omega)
    have hn1 : (E.length : ℚ) - 1 ≠ 0 := by
      have : (2 : ℚ) ≤ (E.length : ℚ) := by exact_mod_cast hlt
      intro hcon
      nlinarith
    have hvar : pyVariance E / ((maxList E : ℚ)) ^ 2
        = ((E.length : ℚ) * popVariance E) /
          (((E.length : ℚ) - 1) * (maxList E : ℚ) ^ 2) := by
      unfold pyVariance popVariance
      field_simp
    simp only [hlt, if_true, if_neg hmaxq, if_neg hn, hvar]

/-- Witness for the amended C3 at `E = [2, 4]`, `m = 3`. -/
theorem C3_amended_confidence_formula_witness :
    (([2, 4] : List ℕ) ≠ [] ∧ (([2, 4] : List ℕ).length = 1 ∨ maxList [2, 4] ≠ 0)) ∧
      calculateEstimateConfidence [2, 4] 3 =
        some (min (0.65 + min ((([2, 4] : List ℕ).length : ℚ) / 5) 1 * 0.15 +
          (if ([2, 4] : List ℕ).length = 1 then 0.05
           else (1 - min (((([2, 4] : List ℕ).length : ℚ) * popVariance [2, 4]) /
              (((([2, 4] : List ℕ).length : ℚ) - 1) * (maxList [2, 4] : ℚ) ^ 2)) 1) * 0.10) +
          min ((3 : ℚ) / 10) 1 * 0.10) 0.95) :=
  ⟨⟨by decide, Or.inr (by decide)⟩,
    C3_amended_confidence_formula [2, 4] 3 (by decide) (Or.inr (by decide))⟩

/-- C4: whenever no ranked similar task carries an estimate — in particular
for an empty candidate population — `generate_estimate` returns exactly the
fixed fallback suggestion (3 points, confidence 0.40, no cited ids, fixed
rationale text), independent of every other feature of the input. -/
theorem C4_fallback_constant (t : Item) (population : List Item)
    (h : (findSimilarTasks t population 20).filter (fun x => x.estimate.isSome) = []) :
    generateEstimate t population = fallbackNoEstimates := by
  simp [generateEstimate, h]

/-- Witness for C4: the empty candidate population. -/
theorem C4_fallback_constant_witness :
    ((findSimilarTasks ⟨1, "", "", none, [], none, 0⟩ [] 20).filter
        (fun x => x.estimate.isSome) = []) ∧
      generateEstimate ⟨1, "", "", none, [], none, 0⟩ [] = fallbackNoEstimates :=
  ⟨by decide, C4_fallback_constant ⟨1, "", "", none, [], none, 0⟩ [] (by decide)⟩

theorem estimates_ne_nil {l : List Item}
    (h : l.filter (fun x => x.estimate.isSome) ≠ []) :
    (l.filter (fun x => x.estimate.isSome)).filterMap (fun x => x.estimate) ≠ [] := by
  cases hf : l.filter (fun x => x.estimate.isSome) with
  | nil => exact absurd hf h
  | cons a as =>
    have ha : a ∈ l.filter (fun x => x.estimate.isSome) := by
      rw [hf]
      exact List.mem_cons_self a as
    obtain ⟨v, hv⟩ := Option.isSome_iff_exists.mp (by simpa using (List.mem_filter.mp ha).2)
    simp [List.filterMap_cons, hv]

theorem calcConf_some_bounds (E : List ℕ) (m : ℕ) (hE : E ≠ []) (c : ℚ)
    (hc : calculateEstimateConfidence E m = some c) :
    (0.68 : ℚ) ≤ c ∧ c ≤ 0.95 := by
  have hn1 : 1 ≤ E.length := List.length_pos.mpr hE
  have hcf : (0.03 : ℚ) ≤ min ((E.length : ℚ) / 5) 1 * 0.15 := by
    have h5 : (1 / 5 : ℚ) ≤ min ((E.length : ℚ) / 5) 1 := by
      apply le_min
      · have : (1 : ℚ) ≤ (E.length : ℚ) := by exact_mod_cast hn1
        linarith
      · norm_num
    nlinarith
  have hctx : (0 : ℚ) ≤ min ((m : ℚ) / 10) 1 * 0.10 := by
    have h0 : (0 : ℚ) ≤ min ((m : ℚ) / 10) 1 := le_min (by positivity) (by norm_num)
    nlinarith
  simp only [calculateEstimateConfidence, if_neg hE] at hc
  by_cases hlt : 1 < E.length
  · by_cases hm : ((maxList E : ℚ)) ^ 2 = 0
    · simp [hlt, hm] at hc
    · simp only [hlt, if_true, hm, if_false, if_neg hm] at hc
      have hcons : (0 : ℚ) ≤ (1 - min (pyVariance E / (maxList E : ℚ) ^ 2) 1) * 0.10 := by
        have : min (pyVariance E / (maxList E : ℚ) ^ 2) 1 ≤ 1 := min_le_right _ _
        nlinarith
      have heq := (Option.some.inj hc).symm
      constructor
      · rw [heq]
        apply le_min
        · linarith
        · norm_num
      · rw [heq]
        exact min_le_right _ _
  · simp only [hlt, if_false] at hc
    have heq := (Option.some.inj hc).symm
    constructor
    · rw [heq]
      apply le_min
      · linarith
      · norm_num
    · rw [heq]
      exact min_le_right _ _

theorem round2_div_bounds (r : ℤ) (h1 : (68 : ℤ) ≤ r) (h2 : r ≤ 95) :
    (0.65 : ℚ) ≤ (r : ℚ) / 100 ∧ (r : ℚ) / 100 ≤ 0.95 := by
  constructor
  · have : (68 : ℚ) ≤ (r : ℚ) := by exact_mod_cast h1
    linarith
  · have : (r : ℚ) ≤ 95 := by exact_mod_cast h2
    linarith

theorem pyRound2_bounds (q : ℚ) (hq1 : (0.68 : ℚ) ≤ q) (hq2 : q ≤ 0.95) :
    (0.65 : ℚ) ≤ pyRound2 q ∧ pyRound2 q ≤ 0.95 := by
  have hx1 : (68 : ℚ) ≤ q * 100 := by linarith
  have hx2 : q * 100 ≤ 95 := by linarith
  have hfloor_lo : (68 : ℤ) ≤ Int.floor (q * 100) := Int.le_floor.mpr (by exact_mod_cast hx1)
  have hfloor_hi : Int.floor (q * 100) ≤ 95 := by
    have h := Int.floor_le_floor hx2
    simpa using h
  simp only [pyRound2]
  split_ifs with hfrac heven
  · exact round2_div_bounds _ hfloor_lo hfloor_hi
  · have hxeq : ((Int.floor (q * 100) : ℚ)) + 1 / 2 = q * 100 := by
      have h := Int.floor_add_fract (q * 100)
      rw [hfrac] at h
      exact h
    have hlt : ((Int.floor (q * 100) : ℚ)) < 95 := by linarith
    have hlt2 : Int.floor (q * 100) < 95 := by exact_mod_cast hlt
    exact round2_div_bounds _ (by omega) (by omega)
  · have hlo : (68 : ℤ) ≤ round (q * 100) := by
      rw [round_eq]
      exact Int.le_floor.mpr (by push_cast; linarith)
    have hhi : round (q * 100) ≤ 95 := by
      rw [round_eq]
      have : Int.floor (q * 100 + 1 / 2) < 96 := Int.floor_lt.mpr (by push_cast; linarith)
      omega
    exact round2_div_bounds _ hlo hhi

/-- C5: the confidence returned by `generate_estimate` is either exactly 0.40
(the fallbacks) or lies in the closed interval [0.65, 0.95]; the engine
never reports a confidence above 0.95. -/
theorem C5_confidence_bounds (t : Item) (population : List Item) :
    (generateEstimate t population).confidence = 0.40 ∨
      ((0.65 : ℚ) ≤ (generateEstimate t population).confidence ∧
        (generateEstimate t population).confidence ≤ 0.95) := by
  simp only [generateEstimate]
  by_cases hfe : (findSimilarTasks t population 20).filter (fun x => x.estimate.isSome) = []
  · rw [if_pos hfe]
    left
    rfl
  · rw [if_neg hfe]
    cases hcalc : calculateEstimateConfidence
        (((findSimilarTasks t population 20).filter (fun x => x.estimate.isSome)).filterMap
          (fun t => t.estimate))
        (findSimilarTasks t population 20).length with
    | none =>
      left
      rfl
    | some conf =>
      right
      have hene := estimates_ne_nil hfe
      have hb := calcConf_some_bounds _ _ hene conf hcalc
      exact pyRound2_bounds conf hb.1 hb.2

/-- C6 counterexample: with one positively-scoring candidate that carries no
estimate, the ranked list is non-empty but the suggestion's cited id list is
empty (the fallback), not the identifiers of the first min(5, length) ranked
items as the claim requires of every input. -/
theorem C6_cited_ids_counterexample :
    findSimilarTasks ⟨1, "", "", some 7, [], none, 0⟩ [⟨2, "", "", some 7, [], none, 5⟩] 20
        = [⟨2, "", "", some 7, [], none, 5⟩] ∧
      (generateEstimate ⟨1, "", "", some 7, [], none, 0⟩
          [⟨2, "", "", some 7, [], none, 5⟩]).similarTaskIds
        ≠ ((findSimilarTasks ⟨1, "", "", some 7, [], none, 0⟩
              [⟨2, "", "", some 7, [], none, 5⟩] 20).take 5).map (fun x => toString x.id) := by
  constructor
  · decide
  · decide

/-- C6 (amended): the cited id list always has at most 5 entries, and on
every input where some ranked similar task carries an estimate and the
confidence computation does not raise, it consists exactly of the
identifiers of the first min(5, length) entries of the overall ranked list
(including estimate-less tasks), in rank order. -/
theorem C6_cited_ids_amended (t : Item) (population : List Item) :
    (generateEstimate t population).similarTaskIds.length ≤ 5 ∧
      ((findSimilarTasks t population 20).filter (fun x => x.estimate.isSome) ≠ [] →
        calculateEstimateConfidence
            (((findSimilarTasks t population 20).filter (fun x => x.estimate.isSome)).filterMap
              (fun x => x.estimate))
            (findSimilarTasks t population 20).length ≠ none →
        (generateEstimate t population).similarTaskIds
          = ((findSimilarTasks t population 20).take 5).map (fun x => toString x.id)) := by
  simp only [generateEstimate]
  by_cases hfe : (findSimilarTasks t population 20).filter (fun x => x.estimate.isSome) = []
  · rw [if_pos hfe]
    exact ⟨by simp [fallbackNoEstimates], fun h _ => absurd hfe h⟩
  · rw [if_neg hfe]
    cases hcalc : calculateEstimateConfidence
        (((findSimilarTasks t population 20).filter (fun x => x.estimate.isSome)).filterMap
          (fun x => x.estimate))
        (findSimilarTasks t population 20).length with
    | none =>
      constructor
      · simp [errorFallback]
      · intro _ hne
        exact absurd rfl hne
    | some conf =>
      constructor
      · show ((((findSimilarTasks t population 20).take 5).map fun x => toString x.id).length) ≤ 5
        rw [List.length_map]
        have := List.length_take_le 5 (findSimilarTasks t population 20)
        omega
      · intro _ _
        rfl

/-- Witness for the amended C6: one similar task with estimate 3. -/
theorem C6_cited_ids_amended_witness :
    ((findSimilarTasks ⟨1, "", "", some 7, [], none, 0⟩
        [⟨2, "", "", some 7, [], some 3, 5⟩] 20).filter (fun x => x.estimate.isSome) ≠ [] ∧
      calculateEstimateConfidence
          (((findSimilarTasks ⟨1, "", "", some 7, [], none, 0⟩
              [⟨2, "", "", some 7, [], some 3, 5⟩] 20).filter
                (fun x => x.estimate.isSome)).filterMap (fun x => x.estimate))
          (findSimilarTasks ⟨1, "", "", some 7, [], none, 0⟩
            [⟨2, "", "", some 7, [], some 3, 5⟩] 20).length ≠ none) ∧
      (generateEstimate ⟨1, "", "", some 7, [], none, 0⟩
          [⟨2, "", "", some 7, [], some 3, 5⟩]).similarTaskIds
        = ((findSimilarTasks ⟨1, "", "", some 7, [], none, 0⟩
              [⟨2, "", "", some 7, [], some 3, 5⟩] 20).take 5).map (fun x => toString x.id) :=
  ⟨⟨by decide, by decide⟩,
    (C6_cited_ids_amended ⟨1, "", "", some 7, [], none, 0⟩
        [⟨2, "", "", some 7, [], some 3, 5⟩]).2 (by decide) (by decide)⟩

theorem calcConf_single_three : calculateEstimateConfidence [3] 1 = some (0.74 : ℚ) := by
  norm_num [calculateEstimateConfidence, min_def]

theorem mockedRationale_single_three :
    generateEstimateRationale 1 (PyNum.pint 3) (0.74 : ℚ)
      = "Based on 1 similar task, median estimate is 3 points (medium confidence)" := by
  have h8 : ¬ ((0.8 : ℚ) ≤ 0.74) := by norm_num
  have h6 : (0.6 : ℚ) ≤ 0.74 := by norm_num
  simp only [generateEstimateRationale, if_neg h8, if_pos h6]
  decide

theorem mockedEstimate_rationale_single :
    (generateEstimate ⟨1, "", "", some 7, [], none, 0⟩
        [⟨2, "", "", some 7, [], some 3, 5⟩]).rationale
      = generateEstimateRationale 1 (PyNum.pint 3) (0.74 : ℚ) := by
  simp only [generateEstimate]
  rw [show findSimilarTasks ⟨1, "", "", some 7, [], none, 0⟩
        [⟨2, "", "", some 7, [], some 3, 5⟩] 20
      = [⟨2, "", "", some 7, [], some 3, 5⟩] from by decide]
  rw [show ([(⟨2, "", "", some 7, [], some 3, 5⟩ : Item)].filter fun x => x.estimate.isSome)
      = [⟨2, "", "", some 7, [], some 3, 5⟩] from by decide]
  rw [if_neg (by decide : ¬([(⟨2, "", "", some 7, [], some 3, 5⟩ : Item)]) = [])]
  rw [show ([(⟨2, "", "", some 7, [], some 3, 5⟩ : Item)].filterMap fun x => x.estimate)
      = [3] from by decide]
  rw [show ([(⟨2, "", "", some 7, [], some 3, 5⟩ : Item)] : List Item).length = 1 from rfl]
  rw [calcConf_single_three]
  rw [show pyMedian [3] = PyNum.pint 3 from by decide]
  rfl

/-- C7 counterexample: an end-to-end `generate_estimate` call with exactly
one estimate-bearing similar task produces the rationale
"Based on 1 similar task, median estimate is 3 points (medium confidence)"
(the MockedAIService composer, whose "medium" threshold is 0.60), which is
not the claimed template "Based on 1 similar task with estimate 3.
Confidence: medium.". -/
theorem C7_rationale_template_counterexample :
    (generateEstimate ⟨1, "", "", some 7, [], none, 0⟩
        [⟨2, "", "", some 7, [], some 3, 5⟩]).rationale
      = "Based on 1 similar task, median estimate is 3 points (medium confidence)" ∧
    (generateEstimate ⟨1, "", "", some 7, [], none, 0⟩
        [⟨2, "", "", some 7, [], some 3, 5⟩]).rationale
      ≠ "Based on 1 similar task with estimate 3. Confidence: medium." := by
  have he := mockedEstimate_rationale_single.trans mockedRationale_single_three
  exact ⟨he, by rw [he]; decide⟩

/-- C7 (amended): the claimed thresholds and templates are exactly those of
the rationale composer `SimilarityService._generate_rationale`
(tasks/services.py): level "high" iff confidence ≥ 0.80, "medium" iff
0.65 ≤ confidence < 0.80, "low" otherwise, with the two fixed templates;
the MockedAIService composer used by `generate_estimate` instead emits
"... (level confidence)" suffix text with a 0.60 "medium" threshold. -/
theorem C7_rationale_templates_amended (n : ℕ) (med conf : ℚ) (hn : 1 ≤ n) :
    (rationaleLevel conf = "high" ↔ (0.80 : ℚ) ≤ conf) ∧
    (rationaleLevel conf = "medium" ↔ (0.65 : ℚ) ≤ conf ∧ conf < 0.80) ∧
    (rationaleLevel conf = "low" ↔ conf < 0.65) ∧
    (n = 1 → generateRationale n med conf
        = "Based on 1 similar task with estimate " ++ toString (ratTrunc med)
          ++ ". Confidence: " ++ rationaleLevel conf ++ ".") ∧
    (1 < n → generateRationale n med conf
        = "Based on median of " ++ toString n ++ " similar tasks (median: "
          ++ toString (ratTrunc med) ++ " points). Confidence: " ++ rationaleLevel conf ++ ".") := by
  refine ⟨?_, ?_, ?_, ?_, ?_⟩
  · unfold rationaleLevel
    split_ifs with h1 h2
    · exact iff_of_true rfl h1
    · exact iff_of_false (by decide) h1
    · exact iff_of_false (by decide) h1
  · unfold rationaleLevel
    split_ifs with h1 h2
    · refine iff_of_false (by decide) ?_
      rintro ⟨_, hlt⟩
      linarith
    · exact iff_of_true rfl ⟨h2, not_le.mp h1⟩
    · refine iff_of_false (by decide) ?_
      rintro ⟨hge, _⟩
      exact h2 hge
  · unfold rationaleLevel
    split_ifs with h1 h2
    · refine iff_of_false (by decide) ?_
      intro h
      linarith
    · refine iff_of_false (by decide) ?_
      intro h
      exact absurd h2 (not_le.mpr h)
    · exact iff_of_true rfl (not_le.mp h2)
  · intro h1
    subst h1
    simp [generateRationale]
  · intro hlt
    have h0 : n ≠ 0 := by omega
    have h1 : n ≠ 1 := by omega
    simp [generateRationale, h0, h1]

/-- Witness for the amended C7 at `n = 2`, median 3, confidence 0.7. -/
theorem C7_rationale_templates_amended_witness :
    (1 ≤ 2) ∧
      ((rationaleLevel 0.7 = "high" ↔ (0.80 : ℚ) ≤ 0.7) ∧
       (rationaleLevel 0.7 = "medium" ↔ (0.65 : ℚ) ≤ 0.7 ∧ (0.7 : ℚ) < 0.80) ∧
       (rationaleLevel 0.7 = "low" ↔ (0.7 : ℚ) < 0.65) ∧
       ((2 : ℕ) = 1 → generateRationale 2 3 0.7
           = "Based on 1 similar task with estimate " ++ toString (ratTrunc 3)
             ++ ". Confidence: " ++ rationaleLevel 0.7 ++ ".") ∧
       ((1 : ℕ) < 2 → generateRationale 2 3 0.7
           = "Based on median of " ++ toString (2 : ℕ) ++ " similar tasks (median: "
             ++ toString (ratTrunc 3) ++ " points). Confidence: " ++ rationaleLevel 0.7 ++ ".")) :=
  ⟨by decide, C7_rationale_templates_amended 2 3 0.7 (by decide)⟩

/-- C8: a negative `limit` is NOT rejected: `_find_similar_tasks` silently
applies Python's negative slice `scored_tasks[:-1]` and returns a normal
ranked result (here: the higher-ranked of two positively-scoring
candidates), contradicting the spec's precondition-failure policy. -/
theorem C8_negative_limit_silently_coerced :
    findSimilarTasks ⟨1, "", "", some 7, [], none, 0⟩
        [⟨2, "", "", some 7, [], none, 10⟩, ⟨3, "", "", some 7, [], none, 5⟩] (-1)
      = [⟨2, "", "", some 7, [], none, 10⟩] := by
  decide

theorem maxList_eq_zero {l : List ℕ} (h : ∀ e ∈ l, e = 0) : maxList l = 0 := by
  induction l with
  | nil => rfl
  | cons a as ih =>
    have ha : a = 0 := h a (List.mem_cons_self a as)
    have hrest : ∀ e ∈ as, e = 0 := fun e he => h e (List.mem_cons_of_mem a he)
    have : maxList (a :: as) = maxList as := by
      simp [maxList, List.foldl_cons, ha]
    rw [this]
    exact ih hrest

/-- C10: when the ranked similar tasks carry at least two estimates and every
estimate equals 0 (a legal value), the confidence computation divides by
`max(estimates)^2 = 0`; the raised `ZeroDivisionError` is absorbed by the
broad handler of `generate_estimate`, so the caller receives the error
fallback (3 points, 0.40, no ids, "Unable to generate estimate at this
time.") despite valid data being present. -/
theorem C10_all_zero_estimates_error_fallback (t : Item) (population : List Item)
    (h1 : 1 < (((findSimilarTasks t population 20).filter fun x => x.estimate.isSome).filterMap
        fun x => x.estimate).length)
    (h2 : ∀ e ∈ ((findSimilarTasks t population 20).filter fun x => x.estimate.isSome).filterMap
        fun x => x.estimate, e = 0) :
    generateEstimate t population = errorFallback := by
  have hEne : ((findSimilarTasks t population 20).filter fun x => x.estimate.isSome).filterMap
      (fun x => x.estimate) ≠ [] := by
    intro h
    rw [h] at h1
    simp at h1
  have hFne : (findSimilarTasks t population 20).filter (fun x => x.estimate.isSome) ≠ [] := by
    intro h
    rw [h] at hEne
    simp at hEne
  have hm : ((maxList (((findSimilarTasks t population 20).filter
      fun x => x.estimate.isSome).filterMap fun x => x.estimate) : ℚ)) ^ 2 = 0 := by
    rw [maxList_eq_zero h2]
    norm_num
  have hcalc : calculateEstimateConfidence
      (((findSimilarTasks t population 20).filter fun x => x.estimate.isSome).filterMap
        fun x => x.estimate)
      (findSimilarTasks t population 20).length = none := by
    simp only [calculateEstimateConfidence, if_neg hEne]
    rw [if_pos h1, if_pos hm]
  simp only [generateEstimate]
  rw [if_neg hFne, hcalc]

/-- Witness for C10: two similar tasks, both with estimate 0. -/
theorem C10_all_zero_estimates_error_fallback_witness :
    ((1 < (((findSimilarTasks ⟨1, "", "", some 7, [], none, 0⟩
          [⟨2, "", "", some 7, [], some 0, 5⟩, ⟨3, "", "", some 7, [], some 0, 4⟩] 20).filter
            fun x => x.estimate.isSome).filterMap fun x => x.estimate).length) ∧
      (∀ e ∈ ((findSimilarTasks ⟨1, "", "", some 7, [], none, 0⟩
          [⟨2, "", "", some 7, [], some 0, 5⟩, ⟨3, "", "", some 7, [], some 0, 4⟩] 20).filter
            fun x => x.estimate.isSome).filterMap fun x => x.estimate, e = 0)) ∧
      generateEstimate ⟨1, "", "", some 7, [], none, 0⟩
          [⟨2, "", "", some 7, [], some 0, 5⟩, ⟨3, "", "", some 7, [], some 0, 4⟩]
        = errorFallback :=
  ⟨⟨by decide, by decide⟩,
    C10_all_zero_estimates_error_fallback ⟨1, "", "", some 7, [], none, 0⟩
      [⟨2, "", "", some 7, [], some 0, 5⟩, ⟨3, "", "", some 7, [], some 0, 4⟩]
      (by decide) (by decide)⟩

/-- Witness for C2 at a concrete input (one positively-scoring candidate). -/
theorem C2_ranking_exact_witness :
    ∃ l : List Item,
      List.Perm ([(⟨2, "", "", some 7, [], none, 5⟩ : Item)].filter fun c =>
        c.id ≠ (⟨1, "", "", some 7, [], none, 0⟩ : Item).id ∧
          0 < score ⟨1, "", "", some 7, [], none, 0⟩ c) l ∧
      List.Pairwise (fun a b => score ⟨1, "", "", some 7, [], none, 0⟩ b
          < score ⟨1, "", "", some 7, [], none, 0⟩ a ∨
        (score ⟨1, "", "", some 7, [], none, 0⟩ a = score ⟨1, "", "", some 7, [], none, 0⟩ b ∧
          b.updatedAt ≤ a.updatedAt)) l ∧
      findSimilarTasks ⟨1, "", "", some 7, [], none, 0⟩
          [⟨2, "", "", some 7, [], none, 5⟩] ((20 : ℕ) : ℤ) = l.take 20 ∧
      (∀ c ∈ findSimilarTasks ⟨1, "", "", some 7, [], none, 0⟩
          [⟨2, "", "", some 7, [], none, 5⟩] ((20 : ℕ) : ℤ),
        c.id ≠ (⟨1, "", "", some 7, [], none, 0⟩ : Item).id ∧
          0 < score ⟨1, "", "", some 7, [], none, 0⟩ c) ∧
      (findSimilarTasks ⟨1, "", "", some 7, [], none, 0⟩
          [⟨2, "", "", some 7, [], none, 5⟩] ((20 : ℕ) : ℤ)).length ≤ 20 :=
  C2_ranking_exact ⟨1, "", "", some 7, [], none, 0⟩ [⟨2, "", "", some 7, [], none, 5⟩] 20
